import Mathlib

/-!
Shallow embedding of jarswap.py, a single-file utility that swaps a
locally built jar into a package cache and can restore the backup, and
verification of the specification claims about it.

File contents are modelled as natural-number markers: the tool never
inspects file contents, only moves and copies whole files, so a marker
suffices to track which bytes end up where. A directory is an
association list from filename to content marker; the filesystem is an
association list from directory path to directory listing. os.path.join
is modelled as concatenation with a slash, which is faithful for the
relative, slash-free path segments used throughout.
-/

/-- Python exceptions that the embedded code can raise. -/
inductive PyErr
  | indexError
  | valueError
  | fileNotFoundError
deriving DecidableEq

/-- How an embedded operation terminates the process: either an explicit
print-and-exit with a status code and message, or an uncaught exception,
which CPython reports as a traceback on stderr with exit status 1. -/
inductive PyExit
  | exitCode : Nat → String → PyExit
  | exn : PyErr → PyExit
deriving DecidableEq

/-- Characters matched by the regex character class [0-9.]. -/
def isVersionChar (c : Char) : Bool := c.isDigit || c = '.'

/-- Removes the leading run ps from cs, if cs starts with it. -/
def chopStart : List Char → List Char → Option (List Char)
  | cs, [] => some cs
  | [], _ :: _ => none
  | c :: cs, p :: ps => if c = p then chopStart cs ps else none

/-- Removes the trailing run suf from cs, if cs ends with it. -/
def chopEnd (cs suf : List Char) : Option (List Char) :=
  (chopStart cs.reverse suf.reverse).map List.reverse

/-- Splits rcs as v followed by a dash followed by b, at the first dash
of rcs; none when rcs has no dash. -/
def breakAtDash : List Char → Option (List Char × List Char)
  | [] => none
  | c :: cs =>
    if c = '-' then some ([], cs)
    else
      match breakAtDash cs with
      | some (v, b) => some (c :: v, b)
      | none => none

/-- The characters of the extension .jar, line 38 alternative one. -/
def jarChars : List Char := ['.', 'j', 'a', 'r']

/-- The characters of the extension .jar.bak, line 38 alternative two. -/
def bakChars : List Char := ['.', 'j', 'a', 'r', '.', 'b', 'a', 'k']

/-- One alternative of the parse regex: check that cs ends with ext and
split what remains at its last dash into basename and version; the
version part must consist of [0-9.] characters only. The greedy (.*)
group takes the longest basename, so the split sits at the last dash,
and a match with that split exists iff any match exists, because an
earlier split would put that same dash into the version group. -/
def tryExt (cs ext : List Char) (extStr : String) : Option (String × String × String) :=
  match chopEnd cs ext with
  | none => none
  | some rest =>
    match breakAtDash rest.reverse with
    | none => none
    | some (vr, br) =>
      if vr.all isVersionChar then
        some (String.mk br.reverse, String.mk vr.reverse, extStr)
      else none

/-- Embeds re.search with pattern (.*)-([0-9.]*)(\.jar|\.jar\.bak)$ on
jarswap.py lines 38 and 109, returning the three groups. The two
extension alternatives are mutually exclusive as suffixes of the same
string, and a match anywhere implies a match from position zero because
the greedy (.*) absorbs any prefix, so searching equals anchoring. -/
def regex_groups (filename : String) : Option (String × String × String) :=
  match tryExt filename.data jarChars ".jar" with
  | some g => some g
  | none => tryExt filename.data bakChars ".jar.bak"

/-- The JarFile class, lines 46-113: a filename together with the parsed
basename, version and extension fields. -/
structure JarFile where
  filename : String
  basename : String
  version : String
  extension : String
deriving DecidableEq

/-- JarFile.__init__, lines 47-51: the constructor receives the parsed
groups but ignores them, re-deriving basename, version and extension by
re-parsing filename (extract_basename, extract_version and
extract_extension each call _parse_filename on self.filename); when the
filename does not parse, subscripting None would raise, modelled as
none. Since the parse is deterministic, the re-parse returns exactly
the groups the factory passed in. -/
def JarFile.init (filename : String) (_b _v _e : String) : Option JarFile :=
  match regex_groups filename with
  | some (b, v, e) =>
    some { filename := filename, basename := b, version := v, extension := e }
  | none => none

/-- JarFileFactory._parse_filename, lines 36-43: on a regex match,
construct a JarFile from the filename and groups, else None. -/
def JarFileFactory.parse_filename (filename : String) : Option JarFile :=
  match regex_groups filename with
  | some (b, v, e) => JarFile.init filename b v e
  | none => none

/-- JarFileFactory.create_jar_file, lines 30-34: return the parse result
when it is not None, and fall through returning None otherwise. -/
def JarFileFactory.create_jar_file (filename : String) : Option JarFile :=
  JarFileFactory.parse_filename filename

/-- Python str.split on a single dot: the empty string yields one empty
component and consecutive dots yield empty components. -/
def splitDotCs : List Char → List (List Char)
  | [] => [[]]
  | c :: cs =>
    if c = '.' then [] :: splitDotCs cs
    else
      match splitDotCs cs with
      | h :: t => (c :: h) :: t
      | [] => [[c]]

/-- Version string split into components, as version.split of line 54. -/
def splitOnDot (s : String) : List String := (splitDotCs s.data).map String.mk

/-- Numeric value of a digit string. -/
def natOfDigits (cs : List Char) : Nat := cs.foldl (fun n c => 10 * n + (c.toNat - 48)) 0

/-- Python int() applied to a version component: a component sliced from
a [0-9.] version field by splitting on dots is a digit string, possibly
empty; int of a nonempty digit string is its value, and int of the
empty string raises ValueError. -/
def pyInt (s : String) : Except PyErr Nat :=
  match s.data with
  | [] => .error .valueError
  | c :: cs =>
    if (c :: cs).all Char.isDigit then .ok (natOfDigits (c :: cs))
    else .error .valueError

/-- The loop of JarFile.__lt__, lines 53-60: walk the components of the
left version by index; fetching the same index from the right version
raises IndexError past its end; the component pair is converted with
int(), which can raise ValueError; the first pair differing as integers
decides; when the left components run out the result is False. -/
def ltComponents : List String → List String → Except PyErr Bool
  | [], _ => .ok false
  | _ :: _, [] => .error .indexError
  | c :: cs, o :: os =>
    match pyInt c with
    | .error e => .error e
    | .ok ci =>
      match pyInt o with
      | .error e => .error e
      | .ok oi => if ci ≠ oi then .ok (decide (ci < oi)) else ltComponents cs os

/-- JarFile.__lt__, lines 53-60. -/
def JarFile.lt (a b : JarFile) : Except PyErr Bool :=
  ltComponents (splitOnDot a.version) (splitOnDot b.version)

/-- The fold of Python max over nonempty input: max keeps the current
item and replaces it when current.__lt__(candidate) is True, since the
candidate > current comparison reflects to __lt__ of the current item. -/
def pyMaxGo (cur : JarFile) : List JarFile → Except PyErr JarFile
  | [] => .ok cur
  | y :: ys =>
    match JarFile.lt cur y with
    | .error e => .error e
    | .ok true => pyMaxGo y ys
    | .ok false => pyMaxGo cur ys

/-- Python max over a list of JarFile values; max of an empty sequence
raises ValueError. -/
def pyMax : List JarFile → Except PyErr JarFile
  | [] => .error .valueError
  | x :: xs => pyMaxGo x xs

/-- JarFile.construct_filename, lines 93-94. -/
def JarFile.construct_filename (j : JarFile) : String :=
  j.basename ++ "-" ++ j.version ++ ".jar"

/-- JarFile.construct_backup_filename, lines 90-91. -/
def JarFile.construct_backup_filename (j : JarFile) : String :=
  j.basename ++ "-" ++ j.version ++ ".jar.bak"

/-- Python truthiness of a JarFile instance: the class defines neither
__bool__ nor __len__, so every instance is truthy. -/
def JarFile.truthy (_ : JarFile) : Bool := true

/-- A directory listing: filenames with content markers, in order. -/
abbrev Dir := List (String × Nat)

/-- The filesystem: directory paths with their listings. -/
abbrev FS := List (String × Dir)

/-- Association list lookup by key. -/
def lookupEntry {α : Type} : List (String × α) → String → Option α
  | [], _ => none
  | (k, v) :: rest, key => if k = key then some v else lookupEntry rest key

/-- Association list update, replacing in place or appending. -/
def setEntry {α : Type} : List (String × α) → String → α → List (String × α)
  | [], key, val => [(key, val)]
  | (k, v) :: rest, key, val =>
    if k = key then (key, val) :: rest else (k, v) :: setEntry rest key val

/-- Association list removal by key. -/
def removeEntry {α : Type} : List (String × α) → String → List (String × α)
  | [], _ => []
  | (k, v) :: rest, key => if k = key then rest else (k, v) :: removeEntry rest key

/-- os.path.join for the relative, slash-free segments used here. -/
def pjoin (a b : String) : String := a ++ "/" ++ b

/-- The listing of a directory, none when the directory is missing. -/
def getDir (fs : FS) (p : String) : Option Dir := lookupEntry fs p

/-- os.listdir: the filenames of a directory; listing a missing
directory raises FileNotFoundError, modelled as none. -/
def listdir (fs : FS) (p : String) : Option (List String) :=
  (getDir fs p).map (List.map Prod.fst)

/-- os.path.isfile for a name inside a directory. -/
def isFile (fs : FS) (dir name : String) : Bool :=
  match getDir fs dir with
  | some d => (lookupEntry d name).isSome
  | none => false

/-- Content of a file, none when directory or file is missing. -/
def readFile (fs : FS) (dir name : String) : Option Nat :=
  match getDir fs dir with
  | some d => lookupEntry d name
  | none => none

/-- Write a file into an existing directory, overwriting any file of the
same name; writing into a missing directory fails. -/
def writeFile (fs : FS) (dir name : String) (content : Nat) : Option FS :=
  match getDir fs dir with
  | some d => some (setEntry fs dir (setEntry d name content))
  | none => none

/-- shutil.move for a plain file: read the source, unlink it, write the
destination, overwriting an existing destination file; a missing source
or a missing destination directory raises. -/
def moveFile (fs : FS) (sdir sname ddir dname : String) : Option FS :=
  match readFile fs sdir sname with
  | none => none
  | some c =>
    match getDir fs sdir with
    | some d => writeFile (setEntry fs sdir (removeEntry d sname)) ddir dname c
    | none => none

/-- shutil.copy for a plain file: read the source and write the
destination, overwriting an existing destination file, with the source
left intact. -/
def copyFileFS (fs : FS) (sdir sname ddir dname : String) : Option FS :=
  match readFile fs sdir sname with
  | none => none
  | some c => writeFile fs ddir dname c

/-- JarFile.create_backup, lines 65-73: when the backup filename already
exists in the directory and force is not set, print and return without
touching anything; otherwise move filename to filename plus .bak inside
the directory. -/
def JarFile.create_backup (j : JarFile) (fs : FS) (directory : String) (force : Bool) :
    FS × Option PyExit :=
  if isFile fs directory (JarFile.construct_backup_filename j) && !force then (fs, none)
  else
    match moveFile fs directory j.filename directory (j.filename ++ ".bak") with
    | some fs2 => (fs2, none)
    | none => (fs, some (.exn .fileNotFoundError))

/-- JarFile.restore_from_backup, lines 75-82: with no backup present,
print and exit with status 1; the message uses str.format with no
placeholder in it, so the jar name is not interpolated and the printed
message is the literal recorded here. Otherwise move the backup file
over the live filename. -/
def JarFile.restore_from_backup (j : JarFile) (fs : FS) (directory : String) :
    FS × Option PyExit :=
  if isFile fs directory (JarFile.construct_backup_filename j) then
    match moveFile fs directory (JarFile.construct_backup_filename j)
        directory (JarFile.construct_filename j) with
    | some fs2 => (fs2, none)
    | none => (fs, some (.exn .fileNotFoundError))
  else (fs, some (.exitCode 1 "No backup exists for jar: "))

/-- JarFile.copy, lines 84-88: copy source slash filename to destination
slash construct_filename. -/
def JarFile.copy (j : JarFile) (fs : FS) (source destination : String) :
    FS × Option PyExit :=
  match copyFileFS fs source j.filename destination (JarFile.construct_filename j) with
  | some fs2 => (fs2, none)
  | none => (fs, some (.exn .fileNotFoundError))

/-- find_latest_jar, lines 116-128. The scan path is built from the
module level global IVY_CACHE, received here as an explicit parameter,
and not from the cache argument of the callers of this function. The
three isdir checks on lines 121-126 only print and never abort, so they
are omitted as pure output; os.listdir of a missing directory raises
FileNotFoundError; max over the parsed listing raises ValueError when
the listing has no parseable name, and comparison errors propagate. -/
def find_latest_jar (IVY_CACHE : String) (fs : FS) (package project : String) :
    Except PyErr JarFile :=
  let package_path := pjoin IVY_CACHE package
  let project_path := pjoin package_path project
  let jar_path := pjoin project_path "jars"
  match listdir fs jar_path with
  | none => .error .fileNotFoundError
  | some names => pyMax (names.filterMap JarFileFactory.create_jar_file)

/-- The filter re.match with pattern (.*)-([0-9.]*)\.jar$ on line 133:
the same decomposition as the parse regex restricted to the plain .jar
alternative. -/
def matchesBuildRe (filename : String) : Bool :=
  match chopEnd filename.data jarChars with
  | none => false
  | some rest =>
    match breakAtDash rest.reverse with
    | none => false
    | some (vr, _) => vr.all isVersionChar

/-- get_latest_build_jar, lines 131-136. -/
def get_latest_build_jar (fs : FS) (build_dir : String) : Except PyErr JarFile :=
  match listdir fs build_dir with
  | none => .error .fileNotFoundError
  | some files => pyMax ((files.filter matchesBuildRe).filterMap JarFileFactory.create_jar_file)

/-- create_backup_and_replace, lines 158-174. The two falsy checks on
the jars returned by max can never fire because JarFile instances are
always truthy and max raises instead of returning a falsy value; they
are embedded nonetheless, with the messages the code would print. The
basename and version of the build jar are overwritten with those of the
cache jar before the copy, and the destination is built from the
cache_dir parameter while the cache scan inside find_latest_jar uses
the IVY_CACHE global. -/
def create_backup_and_replace (IVY_CACHE : String) (fs : FS)
    (cache_dir build_dir package project : String) (force : Bool) : FS × Option PyExit :=
  match get_latest_build_jar fs build_dir with
  | .error e => (fs, some (.exn e))
  | .ok latest_jar =>
    if JarFile.truthy latest_jar = false then
      (fs, some (.exitCode 1 "Could not find latest build."))
    else
      match find_latest_jar IVY_CACHE fs package project with
      | .error e => (fs, some (.exn e))
      | .ok current_jar =>
        if JarFile.truthy current_jar = false then
          (fs, some (.exitCode 1 ("Could not find latest jar for " ++ package ++ " " ++ project)))
        else
          let renamed := { latest_jar with
                           basename := current_jar.basename,
                           version := current_jar.version }
          let destination := pjoin (pjoin (pjoin cache_dir package) project) "jars"
          match JarFile.create_backup current_jar fs destination force with
          | (fs2, some e) => (fs2, some e)
          | (fs2, none) => JarFile.copy renamed fs2 build_dir destination

/-- restore_latest_backup, lines 177-180: the destination is built from
the cache_dir parameter, the scan inside find_latest_jar from the
IVY_CACHE global; errors of the scan propagate as uncaught exceptions. -/
def restore_latest_backup (IVY_CACHE : String) (fs : FS)
    (cache_dir package project : String) : FS × Option PyExit :=
  let destination := pjoin (pjoin (pjoin cache_dir package) project) "jars"
  match find_latest_jar IVY_CACHE fs package project with
  | .error e => (fs, some (.exn e))
  | .ok latest_jar => JarFile.restore_from_backup latest_jar fs destination

/-- A wellformed version component: a nonempty digit string, which is
what the data model of the specification allows between dots. -/
def wfComponent (c : String) : Bool := !c.data.isEmpty && c.data.all Char.isDigit

/-- A JarFile whose version field is a dot-separated sequence of
nonempty digit groups, the shape the data model prescribes. -/
def wfVersion (j : JarFile) : Bool := (splitOnDot j.version).all wfComponent

/-- Integer values of a component list. -/
def compInts (cs : List String) : List Nat := cs.map (fun c => natOfDigits c.data)

/-- Integer values of the version components of a JarFile. -/
def JarFile.versionInts (j : JarFile) : List Nat := compInts (splitOnDot j.version)

/-- The comparator the specification describes: compare corresponding
integer components left to right, the first differing pair decides; a
list that runs out without a differing pair is not less. -/
def lexLt : List Nat → List Nat → Bool
  | [], _ => false
  | _ :: _, [] => false
  | a :: as, b :: bs => if a = b then lexLt as bs else decide (a < b)

theorem pyInt_of_wf (c : String) (h : wfComponent c = true) :
    pyInt c = .ok (natOfDigits c.data) := by
  unfold wfComponent at h
  unfold pyInt
  cases hc : c.data with
  | nil => rw [hc] at h; simp at h
  | cons x xs =>
    rw [hc] at h
    simp only [List.isEmpty_cons, Bool.not_false, Bool.true_and] at h
    simp [h]

theorem ltComponents_eq_lexLt : ∀ (cs os : List String),
    cs.all wfComponent = true → os.all wfComponent = true →
    cs.length ≤ os.length →
    ltComponents cs os = .ok (lexLt (compInts cs) (compInts os)) := by
  intro cs
  induction cs with
  | nil => intro os _ _ _; simp [ltComponents, compInts, lexLt]
  | cons c cs ih =>
    intro os hc ho hl
    cases os with
    | nil => simp at hl
    | cons o os =>
      simp only [List.all_cons, Bool.and_eq_true] at hc ho
      simp only [List.length_cons, Nat.succ_le_succ_iff] at hl
      simp only [ltComponents, pyInt_of_wf c hc.1, pyInt_of_wf o ho.1,
        compInts, List.map_cons, lexLt]
      by_cases hne : natOfDigits c.data = natOfDigits o.data
      · simpa [hne, compInts] using ih os hc.2 ho.2 hl
      · simp [hne]

theorem lexLt_irrefl : ∀ l : List Nat, lexLt l l = false := by
  intro l
  induction l with
  | nil => rfl
  | cons a as ih => simp [lexLt, ih]

theorem lexLt_append : ∀ (a t : List Nat), lexLt a (a ++ t) = false := by
  intro a t
  induction a with
  | nil => cases t <;> rfl
  | cons x xs ih => simp [lexLt, ih]

theorem lexLt_trans : ∀ a b c : List Nat,
    lexLt a b = true → lexLt b c = true → lexLt a c = true := by
  intro a
  induction a with
  | nil => intro b c h1 _; simp [lexLt] at h1
  | cons x xs ih =>
    intro b c h1 h2
    cases b with
    | nil => simp [lexLt] at h1
    | cons y ys =>
      cases c with
      | nil => simp [lexLt] at h2
      | cons z zs =>
        simp only [lexLt] at h1 h2 ⊢
        by_cases hxy : x = y
        · subst hxy
          simp only [if_pos rfl] at h1
          by_cases hxz : x = z
          · subst hxz
            simp only [if_pos rfl] at h2 ⊢
            exact ih ys zs h1 h2
          · simp only [if_neg hxz] at h2 ⊢
            exact h2
        · simp only [if_neg hxy, decide_eq_true_eq] at h1
          by_cases hyz : y = z
          · have hxz : x ≠ z := by omega
            simp only [if_neg hxz, decide_eq_true_eq]
            omega
          · simp only [if_neg hyz, decide_eq_true_eq] at h2
            have hxz : x ≠ z := by omega
            simp only [if_neg hxz, decide_eq_true_eq]
            omega

theorem lexLt_conn : ∀ a b : List Nat, a.length = b.length →
    lexLt a b = false → lexLt b a = false → a = b := by
  intro a
  induction a with
  | nil =>
    intro b hl _ _
    cases b with
    | nil => rfl
    | cons y ys => simp at hl
  | cons x xs ih =>
    intro b hl h1 h2
    cases b with
    | nil => simp at hl
    | cons y ys =>
      simp only [List.length_cons, Nat.succ.injEq] at hl
      simp only [lexLt] at h1 h2
      by_cases hxy : x = y
      · subst hxy
        simp only [if_pos rfl] at h1 h2
        rw [ih ys hl h1 h2]
      · simp only [if_neg hxy, decide_eq_false_iff_not] at h1
        have hyx : ¬y = x := fun h => hxy h.symm
        simp only [if_neg hyx, decide_eq_false_iff_not] at h2
        omega

theorem string_data_append (s t : String) : (s ++ t).data = s.data ++ t.data := by
  cases s
  cases t
  rfl

theorem string_eq_of_data {s t : String} (h : s.data = t.data) : s = t := by
  cases s
  cases t
  exact congrArg String.mk h

theorem chopStart_sound : ∀ (ps cs r : List Char), chopStart cs ps = some r → cs = ps ++ r := by
  intro ps
  induction ps with
  | nil =>
    intro cs r h
    cases cs with
    | nil =>
      have h2 : ([] : List Char) = r := Option.some.inj h
      simp [← h2]
    | cons c cs =>
      have h2 : c :: cs = r := Option.some.inj h
      simp [h2]
  | cons p ps ih =>
    intro cs r h
    cases cs with
    | nil => exact Option.noConfusion h
    | cons c cs =>
      simp only [chopStart] at h
      split at h
      · rename_i hc
        rw [hc, ih cs r h, List.cons_append]
      · exact absurd h (by simp)

theorem chopEnd_sound (cs suf r : List Char) (h : chopEnd cs suf = some r) :
    cs = r ++ suf := by
  unfold chopEnd at h
  cases hc : chopStart cs.reverse suf.reverse with
  | none => rw [hc] at h; simp at h
  | some r0 =>
    rw [hc] at h
    have h3 : r0.reverse = r := Option.some.inj h
    have h1 := chopStart_sound suf.reverse cs.reverse r0 hc
    have h2 := congrArg List.reverse h1
    simp only [List.reverse_reverse, List.reverse_append] at h2
    rw [h2, ← h3]

theorem breakAtDash_sound : ∀ (rcs v b : List Char),
    breakAtDash rcs = some (v, b) → rcs = v ++ '-' :: b := by
  intro rcs
  induction rcs with
  | nil => intro v b h; simp [breakAtDash] at h
  | cons c cs ih =>
    intro v b h
    simp only [breakAtDash] at h
    split at h
    · rename_i hc
      simp only [Option.some.injEq, Prod.mk.injEq] at h
      rw [hc, ← h.1, ← h.2]
      rfl
    · rename_i hc
      cases hb : breakAtDash cs with
      | none => rw [hb] at h; simp at h
      | some p =>
        obtain ⟨v0, b0⟩ := p
        rw [hb] at h
        simp only [Option.some.injEq, Prod.mk.injEq] at h
        rw [← h.1, ← h.2, List.cons_append]
        rw [ih v0 b0 hb]

theorem tryExt_sound (cs ext : List Char) (extStr b v e : String)
    (h : tryExt cs ext extStr = some (b, v, e)) :
    e = extStr ∧ cs = b.data ++ '-' :: (v.data ++ ext) := by
  unfold tryExt at h
  split at h
  · exact absurd h (by simp)
  · rename_i rest hc
    split at h
    · exact absurd h (by simp)
    · rename_i vr br hb
      split at h
      · simp only [Option.some.injEq, Prod.mk.injEq] at h
        obtain ⟨hbq, hvq, heq⟩ := h
        refine ⟨heq.symm, ?_⟩
        have h1 := chopEnd_sound cs ext rest hc
        have h2 := congrArg List.reverse (breakAtDash_sound rest.reverse vr br hb)
        simp only [List.reverse_reverse, List.reverse_append, List.reverse_cons] at h2
        rw [h1, h2, ← hbq, ← hvq]
        simp [List.append_assoc]
      · exact absurd h (by simp)

theorem create_jar_file_sound (fn : String) (j : JarFile)
    (h : JarFileFactory.create_jar_file fn = some j) :
    regex_groups fn = some (j.basename, j.version, j.extension) ∧ j.filename = fn := by
  unfold JarFileFactory.create_jar_file JarFileFactory.parse_filename at h
  cases hg : regex_groups fn with
  | none => rw [hg] at h; simp at h
  | some g =>
    obtain ⟨b, v, e⟩ := g
    rw [hg] at h
    unfold JarFile.init at h
    rw [hg] at h
    simp only [Option.some.injEq] at h
    subst h
    exact ⟨rfl, rfl⟩

/-- A live jar of basename foo and version 1.2, as parsed from its
filename. -/
def jarA : JarFile := JarFile.mk "foo-1.2.jar" "foo" "1.2" ".jar"

/-- A live jar of basename foo and version 1.3. -/
def jarB : JarFile := JarFile.mk "foo-1.3.jar" "foo" "1.3" ".jar"

/-- A live jar of basename foo and version 2.0. -/
def jarC : JarFile := JarFile.mk "foo-2.0.jar" "foo" "2.0" ".jar"

/-- A live jar with the three-component version 1.2.0. -/
def jarLong : JarFile := JarFile.mk "foo-1.2.0.jar" "foo" "1.2.0" ".jar"

/-- C1: replace mode without force, starting from a cache jars directory
holding exactly foo-1.2.jar with content marker 7 and a build directory
holding exactly foo-1.3.jar with content marker 9, run with the default
cache root so that the scanned directory and the destination coincide:
afterwards the cache directory holds exactly foo-1.2.jar.bak with the
old content 7 and foo-1.2.jar with the build content 9, the build
directory is unchanged, and the operation exits cleanly. -/
theorem C1_replace_backs_up_and_installs :
    create_backup_and_replace "cache"
        [("cache/p/q/jars", [("foo-1.2.jar", 7)]), ("build", [("foo-1.3.jar", 9)])]
        "cache" "build" "p" "q" false
      = ([("cache/p/q/jars", [("foo-1.2.jar.bak", 7), ("foo-1.2.jar", 9)]),
          ("build", [("foo-1.3.jar", 9)])], none) := rfl

/-- C2: the claim that the scanned cache directory equals the directory
used for the backup and install steps fails when the cache root is
overridden: find_latest_jar builds its scan path from the IVY_CACHE
global while create_backup_and_replace builds the destination from its
cache_dir parameter. With the override custom, a fully populated
custom/p/q/jars and no directory under the default root homeIvy, the
whole operation aborts with an uncaught FileNotFoundError from listing
homeIvy/p/q/jars and never touches the populated overridden cache. -/
theorem C2_scan_ignores_cache_override :
    create_backup_and_replace "homeIvy"
        [("custom/p/q/jars", [("foo-1.2.jar", 7)]), ("build", [("foo-1.3.jar", 9)])]
        "custom" "build" "p" "q" false
      = ([("custom/p/q/jars", [("foo-1.2.jar", 7)]), ("build", [("foo-1.3.jar", 9)])],
         some (PyExit.exn PyErr.fileNotFoundError)) := rfl

/-- C3: restore mode with both the live file, content 8, and its backup,
content 7, present: after the restore the live filename holds the former
backup content 7 and the backup file is gone, because it was moved and
not copied; running restore again on the resulting state fails with the
MissingBackup exit, message and status 1, leaving the state unchanged. -/
theorem C3_restore_moves_backup_and_second_restore_fails :
    restore_latest_backup "cache"
        [("cache/p/q/jars", [("foo-1.2.jar", 8), ("foo-1.2.jar.bak", 7)])] "cache" "p" "q"
      = ([("cache/p/q/jars", [("foo-1.2.jar", 7)])], none) ∧
    restore_latest_backup "cache"
        [("cache/p/q/jars", [("foo-1.2.jar", 7)])] "cache" "p" "q"
      = ([("cache/p/q/jars", [("foo-1.2.jar", 7)])],
         some (PyExit.exitCode 1 "No backup exists for jar: ")) := ⟨rfl, rfl⟩

/-- C4: replace mode without force when a backup, content 7, already
exists next to the live file, content 8: no new backup is created, the
existing backup keeps its content 7 unchanged, and the live filename is
overwritten with the new build content 9. -/
theorem C4_replace_no_force_skips_existing_backup :
    create_backup_and_replace "cache"
        [("cache/p/q/jars", [("foo-1.2.jar", 8), ("foo-1.2.jar.bak", 7)]),
         ("build", [("foo-1.3.jar", 9)])]
        "cache" "build" "p" "q" false
      = ([("cache/p/q/jars", [("foo-1.2.jar", 9), ("foo-1.2.jar.bak", 7)]),
          ("build", [("foo-1.3.jar", 9)])], none) := rfl

/-- C5 counterexample: the comparator is not total over parseable
artifacts. Both foo-1.2.0.jar and foo-1.2.jar parse, yet evaluating
whether the 1.2.0 artifact is less than the 1.2 artifact raises
IndexError, because the comparison loop indexes the shorter right-hand
component list past its end. -/
theorem C5_counterexample :
    JarFileFactory.create_jar_file "foo-1.2.0.jar" = some jarLong ∧
    JarFileFactory.create_jar_file "foo-1.2.jar" = some jarA ∧
    JarFile.lt jarLong jarA = Except.error PyErr.indexError := ⟨rfl, rfl, rfl⟩

/-- C5 as amended: for artifacts whose versions are dot-separated
sequences of nonempty digit groups, evaluating a less than b is defined
whenever the version of a has no more components than the version of b,
and when the integer components of a form a prefix of those of b the
shorter a is not less than the longer b; evaluating the comparison with
the longer version on the left raises IndexError instead of returning a
value, as the counterexample shows. -/
theorem C5_lt_defined_when_left_not_longer :
    ∀ a b : JarFile, wfVersion a = true → wfVersion b = true →
    (splitOnDot a.version).length ≤ (splitOnDot b.version).length →
    JarFile.lt a b = Except.ok (lexLt (JarFile.versionInts a) (JarFile.versionInts b)) ∧
    (JarFile.versionInts b =
        JarFile.versionInts a ++
          (JarFile.versionInts b).drop (JarFile.versionInts a).length →
      JarFile.lt a b = Except.ok false) := by
  intro a b ha hb hl
  have h1 := ltComponents_eq_lexLt (splitOnDot a.version) (splitOnDot b.version) ha hb hl
  refine ⟨h1, ?_⟩
  intro hp
  calc JarFile.lt a b
      = Except.ok (lexLt (JarFile.versionInts a) (JarFile.versionInts b)) := h1
    _ = Except.ok (lexLt (JarFile.versionInts a)
          (JarFile.versionInts a ++
            (JarFile.versionInts b).drop (JarFile.versionInts a).length)) := by rw [← hp]
    _ = Except.ok false := by rw [lexLt_append]

/-- Witness for the amended C5 at the concrete pair 1.2 versus 1.2.0:
the comparison of the shorter against the longer is defined and yields
not less. -/
theorem C5_lt_defined_witness :
    JarFile.lt jarA jarLong =
      Except.ok (lexLt (JarFile.versionInts jarA) (JarFile.versionInts jarLong)) ∧
    (JarFile.versionInts jarLong =
        JarFile.versionInts jarA ++
          (JarFile.versionInts jarLong).drop (JarFile.versionInts jarA).length →
      JarFile.lt jarA jarLong = Except.ok false) :=
  C5_lt_defined_when_left_not_longer jarA jarLong (by decide) (by decide) (by decide)

/-- C6: over artifacts whose versions are wellformed digit sequences of
equal component count, the comparator returns a value that agrees with
left-to-right integer comparison of corresponding components, with the
first differing pair deciding, and is a strict total order: it is
irreflexive, transitive, and two artifacts neither of which is less
than the other have equal integer component sequences. -/
theorem C6_equal_length_strict_total_order :
    ∀ a b c : JarFile, wfVersion a = true → wfVersion b = true → wfVersion c = true →
    (splitOnDot a.version).length = (splitOnDot b.version).length →
    (splitOnDot b.version).length = (splitOnDot c.version).length →
    JarFile.lt a b = Except.ok (lexLt (JarFile.versionInts a) (JarFile.versionInts b)) ∧
    JarFile.lt a a = Except.ok false ∧
    (JarFile.lt a b = Except.ok true → JarFile.lt b c = Except.ok true →
      JarFile.lt a c = Except.ok true) ∧
    (JarFile.lt a b = Except.ok false → JarFile.lt b a = Except.ok false →
      JarFile.versionInts a = JarFile.versionInts b) := by
  intro a b c ha hb hc hab hbc
  have eab := ltComponents_eq_lexLt _ _ ha hb (le_of_eq hab)
  have eba := ltComponents_eq_lexLt _ _ hb ha (le_of_eq hab.symm)
  have ebc := ltComponents_eq_lexLt _ _ hb hc (le_of_eq hbc)
  have eac := ltComponents_eq_lexLt _ _ ha hc (le_of_eq (hab.trans hbc))
  have eaa := ltComponents_eq_lexLt _ _ ha ha (le_refl _)
  refine ⟨eab, ?_, ?_, ?_⟩
  · have h0 : lexLt (JarFile.versionInts a) (JarFile.versionInts a) = false := lexLt_irrefl _
    calc JarFile.lt a a
        = Except.ok (lexLt (JarFile.versionInts a) (JarFile.versionInts a)) := eaa
      _ = Except.ok false := by rw [h0]
  · intro h1 h2
    have h1' : lexLt (JarFile.versionInts a) (JarFile.versionInts b) = true :=
      Except.ok.inj (eab.symm.trans h1)
    have h2' : lexLt (JarFile.versionInts b) (JarFile.versionInts c) = true :=
      Except.ok.inj (ebc.symm.trans h2)
    have h3 := lexLt_trans _ _ _ h1' h2'
    calc JarFile.lt a c
        = Except.ok (lexLt (JarFile.versionInts a) (JarFile.versionInts c)) := eac
      _ = Except.ok true := by rw [h3]
  · intro h1 h2
    have h1' : lexLt (JarFile.versionInts a) (JarFile.versionInts b) = false :=
      Except.ok.inj (eab.symm.trans h1)
    have h2' : lexLt (JarFile.versionInts b) (JarFile.versionInts a) = false :=
      Except.ok.inj (eba.symm.trans h2)
    have hlen : (JarFile.versionInts a).length = (JarFile.versionInts b).length := by
      simp [JarFile.versionInts, compInts, hab]
    exact lexLt_conn _ _ hlen h1' h2'

/-- Witness for C6 at the concrete triple of versions 1.2, 1.3, 2.0. -/
theorem C6_witness :
    JarFile.lt jarA jarB =
      Except.ok (lexLt (JarFile.versionInts jarA) (JarFile.versionInts jarB)) ∧
    JarFile.lt jarA jarA = Except.ok false ∧
    (JarFile.lt jarA jarB = Except.ok true → JarFile.lt jarB jarC = Except.ok true →
      JarFile.lt jarA jarC = Except.ok true) ∧
    (JarFile.lt jarA jarB = Except.ok false → JarFile.lt jarB jarA = Except.ok false →
      JarFile.versionInts jarA = JarFile.versionInts jarB) :=
  C6_equal_length_strict_total_order jarA jarB jarC
    (by decide) (by decide) (by decide) (by decide) (by decide)

/-- C7: parsing a filename into a JarFile and reconstructing a filename
from the parsed parts restores the original filename, through
construct_filename for the .jar extension and through
construct_backup_filename for the .jar.bak extension. -/
theorem C7_parse_construct_roundtrip (fn : String) (j : JarFile)
    (h : JarFileFactory.create_jar_file fn = some j) :
    (j.extension = ".jar" ∧ JarFile.construct_filename j = fn) ∨
    (j.extension = ".jar.bak" ∧ JarFile.construct_backup_filename j = fn) := by
  obtain ⟨hg, hfn⟩ := create_jar_file_sound fn j h
  unfold regex_groups at hg
  split at hg
  · rename_i g hjar
    have hg2 : g = (j.basename, j.version, j.extension) := Option.some.inj hg
    subst hg2
    obtain ⟨he, hdata⟩ :=
      tryExt_sound fn.data jarChars ".jar" j.basename j.version j.extension hjar
    left
    refine ⟨he, ?_⟩
    apply string_eq_of_data
    simp only [JarFile.construct_filename, string_data_append, hdata]
    simp [List.append_assoc, jarChars]
  · rename_i hjarnone
    obtain ⟨he, hdata⟩ :=
      tryExt_sound fn.data bakChars ".jar.bak" j.basename j.version j.extension hg
    right
    refine ⟨he, ?_⟩
    apply string_eq_of_data
    simp only [JarFile.construct_backup_filename, string_data_append, hdata]
    simp [List.append_assoc, bakChars]

/-- Witness for C7 at the live filename foo-1.2.jar. -/
theorem C7_witness :
    (jarA.extension = ".jar" ∧ JarFile.construct_filename jarA = "foo-1.2.jar") ∨
    (jarA.extension = ".jar.bak" ∧
      JarFile.construct_backup_filename jarA = "foo-1.2.jar") :=
  C7_parse_construct_roundtrip "foo-1.2.jar" jarA rfl

/-- C8: a build directory with zero filenames matching the artifact
pattern makes the whole operation abort with no file moved or copied,
but the abort happens through the uncaught ValueError that max raises
on the empty candidate sequence, with exit status 1 from the traceback;
the guarded report on lines 160-162 of the source, which would print the
failure message before exiting, is dead code, because max never returns
a falsy value. -/
theorem C8_empty_build_scan_aborts_without_report :
    create_backup_and_replace "ivy"
        [("build", [("README.txt", 5)]), ("ivy/p/q/jars", [("foo-1.2.jar", 7)])]
        "ivy" "build" "p" "q" false
      = ([("build", [("README.txt", 5)]), ("ivy/p/q/jars", [("foo-1.2.jar", 7)])],
         some (PyExit.exn PyErr.valueError)) := rfl

/-- C9: restore mode when no backup file exists for the artifact that
the cache scan resolved: the operation exits with status 1 and the
MissingBackup message, and the filesystem is returned exactly as it
was, so the live file and every other file are unchanged. -/
theorem C9_missing_backup_leaves_state_unchanged
    (IVY_CACHE : String) (fs : FS) (cache_dir package project : String) (j : JarFile)
    (hfind : find_latest_jar IVY_CACHE fs package project = Except.ok j)
    (hnob : isFile fs (pjoin (pjoin (pjoin cache_dir package) project) "jars")
        (JarFile.construct_backup_filename j) = false) :
    restore_latest_backup IVY_CACHE fs cache_dir package project
      = (fs, some (PyExit.exitCode 1 "No backup exists for jar: ")) := by
  have hstep : restore_latest_backup IVY_CACHE fs cache_dir package project
      = JarFile.restore_from_backup j fs
          (pjoin (pjoin (pjoin cache_dir package) project) "jars") := by
    unfold restore_latest_backup
    rw [hfind]
  rw [hstep]
  unfold JarFile.restore_from_backup
  rw [hnob]
  simp

/-- Witness for C9 with a cache slot holding only the live file. -/
theorem C9_witness :
    restore_latest_backup "c" [("c/p/q/jars", [("foo-1.2.jar", 4)])] "c" "p" "q"
      = ([("c/p/q/jars", [("foo-1.2.jar", 4)])],
         some (PyExit.exitCode 1 "No backup exists for jar: ")) :=
  C9_missing_backup_leaves_state_unchanged "c" [("c/p/q/jars", [("foo-1.2.jar", 4)])]
    "c" "p" "q" (JarFile.mk "foo-1.2.jar" "foo" "1.2" ".jar") rfl rfl

/-- C10: filenames whose version field is empty or contains consecutive
dots still match the pattern, parse into artifacts, enter the candidate
list used for maximum selection, and can be selected as the latest
cache artifact. -/
theorem C10_degenerate_versions_are_candidates :
    JarFileFactory.create_jar_file "foo-.jar" =
      some (JarFile.mk "foo-.jar" "foo" "" ".jar") ∧
    JarFileFactory.create_jar_file "foo-1..2.jar" =
      some (JarFile.mk "foo-1..2.jar" "foo" "1..2" ".jar") ∧
    (["foo-.jar", "foo-1..2.jar"].filterMap JarFileFactory.create_jar_file)
      = [JarFile.mk "foo-.jar" "foo" "" ".jar",
         JarFile.mk "foo-1..2.jar" "foo" "1..2" ".jar"] ∧
    find_latest_jar "ivy" [("ivy/p/q/jars", [("foo-.jar", 3)])] "p" "q"
      = Except.ok (JarFile.mk "foo-.jar" "foo" "" ".jar") := ⟨rfl, rfl, rfl, rfl⟩
